import Mathlib

/-!
Verification development for the ansible CLI stub dispatcher
(`lib/ansible/cli/scripts/ansible_cli_stub.py`).

The `__main__` block of the stub is shallowly embedded as pure Lean
functions.  Strings are modelled as `List Char`; Python's `str.split('-')`
is `pySplit '-'`; every collaborator call whose outcome the dispatcher
merely observes (module import, `os.mkdir`, `to_text` re-encoding of the
argument vector, `mycli(args)` construction, `cli.run()`, the configured
`debug` flag, `context.CLIARGS`) is an input supplied through an `Env`
record.  Exceptions are modelled by the `PyExc` inductive, mirroring the
exception classes the stub's `except` chain discriminates; the messages
the stub prints become `Ev` events collected in order.
-/

namespace AnsibleStub

/-- Python's `str.split(sep)` for a single-character separator, over
`List Char`.  Mirrors CPython semantics: `''.split('-') == ['']`,
`'a-'.split('-') == ['a', '']`. -/
def pySplit (sep : Char) : List Char → List (List Char)
  | [] => [[]]
  | c :: cs =>
    if c = sep then [] :: pySplit sep cs
    else
      match pySplit sep cs with
      | [] => [[c]]
      | t :: ts => (c :: t) :: ts

/-- `'ansible'`, the suite's primary program name (source line `elif target[0] == 'ansible'`). -/
def ansibleChars : List Char := ['a', 'n', 's', 'i', 'b', 'l', 'e']

/-- `'adhoc'`, the fixed default alias (source line `sub = 'adhoc'`). -/
def adhocChars : List Char := ['a', 'd', 'h', 'o', 'c']

/-- Outcome of the alias-resolution block (source lines 85-98):
either a sub-command alias, the `AnsibleError("Unknown Ansible alias: ...")`
raise, or an uncaught `IndexError` from `target[-1][0]` / `target[0]`. -/
inductive AliasResult where
  | ok (sub : List Char)
  | unknownAlias
  | indexError
deriving DecidableEq, Repr

/-- Whether an `AliasResult` is the `ok` constructor. -/
def AliasResult.isOk : AliasResult → Bool
  | .ok _ => true
  | _ => false

/-- The alias-resolution block of the stub, over the already-split token
list `target`:

```
if target[-1][0].isdigit():
    target = target[:-1]
if len(target) > 1:
    sub = target[1]
elif target[0] == 'ansible':
    sub = 'adhoc'
else:
    raise AnsibleError(f"Unknown Ansible alias: {me}")
```

`target[-1]` on an empty list and `target[-1][0]` on an empty last token
raise `IndexError`, as does `target[0]` when the digit strip empties the
list. -/
def resolveCore (ts : List (List Char)) : AliasResult :=
  match ts.getLast? with
  | none => .indexError
  | some [] => .indexError
  | some (c :: _) =>
    match (if c.isDigit then ts.dropLast else ts) with
    | _ :: sub :: _ => .ok sub
    | [t] => if t = ansibleChars then .ok adhocChars else .unknownAlias
    | [] => .indexError

/-- Alias resolution from the invocation basename `me`
(source: `target = me.split('-')` followed by `resolveCore`). -/
def resolve_alias (me : List Char) : AliasResult :=
  resolveCore (pySplit '-' me)

/-- The token list after the one-time digit-suffix strip of lines 85-92
(`if target[-1][0].isdigit(): target = target[:-1]`); `none` when
`target[-1][0]` raises `IndexError`. -/
def strippedTokens (ts : List (List Char)) : Option (List (List Char)) :=
  match ts.getLast? with
  | none => none
  | some [] => none
  | some (c :: _) => some (if c.isDigit then ts.dropLast else ts)

/-- Exception classes the stub's `except` chain distinguishes.
`optionsError` is `AnsibleOptionsError`, `parserError` is
`AnsibleParserError`, `ansibleError` is any other `AnsibleError`;
the remaining constructors are non-ansible exceptions that fall through
to the generic `except Exception` arm (`keyboardInterrupt` excepted,
which has its own arm). -/
inductive PyExc where
  | optionsError (msg : String)
  | parserError (msg : String)
  | ansibleError (msg : String)
  | keyboardInterrupt
  | importError (msg : String)
  | indexError
  | attributeError (msg : String)
  | unicodeError (msg : String)
  | otherExc (msg : String)
deriving DecidableEq, Repr

/-- `to_text(e)` for the modelled exceptions: the carried message. -/
def excText : PyExc → String
  | .optionsError m => m
  | .parserError m => m
  | .ansibleError m => m
  | .keyboardInterrupt => "KeyboardInterrupt"
  | .importError m => m
  | .indexError => "string index out of range"
  | .attributeError m => m
  | .unicodeError m => m
  | .otherExc m => m

/-- Exceptions caught by the `except AnsibleOptionsError` /
`except AnsibleParserError` / `except AnsibleError` arms (all three
classes are `AnsibleError` subclasses in `ansible.errors`). -/
def isAnsibleExc : PyExc → Bool
  | .optionsError _ => true
  | .parserError _ => true
  | .ansibleError _ => true
  | _ => false

/-- An exception is unclassified when no dedicated `except` arm matches
it, so it reaches the generic `except Exception` handler. -/
def isUnclassified (e : PyExc) : Bool :=
  !isAnsibleExc e && e ≠ .keyboardInterrupt

/-- Calls the stub makes on the display collaborator (`LastResort` or
`Display`); `displayMsg` carries the `log_only` keyword. -/
inductive Ev where
  | errorMsg (msg : String)
  | warningMsg (msg : String)
  | debugMsg (msg : String)
  | deprecatedMsg (msg : String)
  | displayMsg (msg : String) (logOnly : Bool)
  | vvvMsg (msg : String)
  | printHelp
deriving DecidableEq, Repr

/-- Result of the `os.mkdir(b_ansible_dir, 0o700)` call. -/
inductive MkdirResult where
  | created
  | eexist
  | failed (msg : String)
deriving DecidableEq, Repr

/-- Result of `getattr(__import__(f"ansible.cli.{sub}", ...), myclass)`:
success, an `ImportError` with message `msg`, or some other exception
raised while loading the module. -/
inductive ImportOutcome where
  | ok
  | importErr (msg : String)
  | raises (e : PyExc)
deriving DecidableEq, Repr

/-- Collaborator outcomes and configuration the dispatcher observes. -/
structure Env where
  /-- `import ansible.constants ...` raises `AnsibleOptionsError msg` when `some msg`. -/
  configImportError : Option String
  /-- `C.CONTROLLER_PYTHON_WARNING`. -/
  controllerPythonWarning : Bool
  /-- `_PY38_MIN`. -/
  py38min : Bool
  /-- outcome of the dynamic import of the sub-command class. -/
  importOutcome : ImportOutcome
  /-- outcome of `os.mkdir` on `~/.ansible`. -/
  mkdirResult : MkdirResult
  /-- whether every `sys.argv` entry re-encodes under strict utf-8. -/
  argvDecodable : Bool
  /-- `mycli(args)` raises `e` when `some e`. -/
  constructExc : Option PyExc
  /-- outcome of `cli.run()`. -/
  runResult : Except PyExc Int
  /-- `C.DEFAULT_DEBUG`. -/
  debug : Bool
  /-- `bool(context.CLIARGS)`. -/
  hasCliOptions : Bool
  /-- `context.CLIARGS['verbosity']` (read only when `hasCliOptions`). -/
  verbosity : Nat
  /-- `e.orig_exc` when the failing exception has the attribute. -/
  origExc : Option String
deriving Repr

/-- The deprecation note emitted when the controller python is older
than 3.8 and the warning flag is set. -/
def deprecationMsg : String :=
  "Ansible will require Python 3.8 or newer on the controller starting with Ansible 2.12."

/-- Python's `str.endswith(suffix)`, over the character lists of the
modelled strings. -/
def pyEndsWith (s suf : String) : Bool :=
  suf.toList.isSuffixOf s.toList

/-- The implementation-loader block (source lines 100-108):

```
try:
    mycli = getattr(__import__(f"ansible.cli.{sub}", fromlist=[myclass]), myclass)
except ImportError as e:
    msg = e.msg if 'msg' in dir(e) else e.message
    if msg.endswith(f' {sub}'):
        raise AnsibleError(f"Ansible sub-program not implemented: {me}")
    else:
        raise
```

An `ImportError` whose message ends with a space followed by the alias is
translated to the not-implemented `AnsibleError`; any other failure is
propagated unchanged. -/
def load_impl (me sub : List Char) (imp : ImportOutcome) : Except PyExc Unit :=
  match imp with
  | .ok => .ok ()
  | .importErr msg =>
    if pyEndsWith msg (" " ++ sub.asString) then
      .error (.ansibleError ("Ansible sub-program not implemented: " ++ me.asString))
    else
      .error (.importError msg)
  | .raises e => .error e

/-- Display events produced by the state-directory block for a given
`os.mkdir` outcome (source lines 110-119): silence on `EEXIST`, a
warning on any other `OSError`, a debug note on success. -/
def mkdirEvents (r : MkdirResult) : List Ev :=
  match r with
  | .created => [.debugMsg "Created the '~/.ansible' directory"]
  | .eexist => []
  | .failed msg => [.warningMsg ("Failed to create the directory '~/.ansible': " ++ msg)]

/-- A minimal filesystem at the state-directory path: whether the
directory exists and whether its parent permits creation. -/
structure FS where
  dirExists : Bool
  writable : Bool
deriving DecidableEq, Repr

/-- `os.mkdir` against the minimal filesystem: `EEXIST` when the
directory exists, another `OSError` when the parent is not writable,
creation otherwise. -/
def osMkdir (fs : FS) : FS × MkdirResult :=
  if fs.dirExists then (fs, .eexist)
  else if fs.writable then ({ fs with dirExists := true }, .created)
  else (fs, .failed "permission denied")

/-- The state-directory block run against the minimal filesystem:
performs the `os.mkdir`, absorbs every failure into at most a warning,
and returns the new filesystem with the display events. -/
def ensure_state_directory (fs : FS) : FS × List Ev :=
  match osMkdir fs with
  | (fs1, r) => (fs1, mkdirEvents r)

/-- Result of the body of the outer `try` (source lines 76-128):
the Python value of `exit_code` or the exception escaping the body,
the display events emitted so far, whether `cli = mycli(args)` completed
(so `cli` is not `None`), and whether `cli.run()` was invoked. -/
structure TryResult where
  res : Except PyExc Int
  events : List Ev
  constructed : Bool
  ran : Bool
deriving Repr

/-- The text printed on the argument re-encoding failure. -/
def encodingErrMsg : String :=
  "Command line args are not in utf-8, unable to continue.  Ansible currently only understands utf-8"

/-- Stand-in for `u"The full traceback was:\n\n%s" % to_text(traceback.format_exc())`
printed in the `UnicodeError` arm. -/
def unicodeTracebackMsg : String := "The full traceback was"

/-- Stand-in for `u"the full traceback was:\n\n%s" % to_text(traceback.format_exc())`
printed in the generic `except Exception` arm. -/
def genericTracebackMsg : String := "the full traceback was"

/-- Events emitted at the top of the outer `try` body: the one-time
deprecation note when the warning flag is set on an old controller
python, and `display.debug("starting run")`. -/
def preEvents (env : Env) : List Ev :=
  (if env.controllerPythonWarning && !env.py38min
   then [.deprecatedMsg deprecationMsg] else [])
  ++ [.debugMsg "starting run"]

/-- The body of the outer `try`: deprecation note and `debug("starting run")`,
alias resolution, implementation loading, state-directory creation,
argument re-encoding (exit code 6 on `UnicodeError`, without constructing
the implementation), then construction and `cli.run()`. -/
def tryBody (env : Env) (me : List Char) : TryResult :=
  match resolve_alias me with
  | .indexError => ⟨.error .indexError, preEvents env, false, false⟩
  | .unknownAlias =>
    ⟨.error (.ansibleError ("Unknown Ansible alias: " ++ me.asString)),
     preEvents env, false, false⟩
  | .ok sub =>
    match load_impl me sub env.importOutcome with
    | .error e => ⟨.error e, preEvents env, false, false⟩
    | .ok () =>
      if env.argvDecodable then
        match env.constructExc with
        | some e =>
          ⟨.error e, preEvents env ++ mkdirEvents env.mkdirResult, false, false⟩
        | none =>
          match env.runResult with
          | .error e =>
            ⟨.error e, preEvents env ++ mkdirEvents env.mkdirResult, true, true⟩
          | .ok code =>
            ⟨.ok code, preEvents env ++ mkdirEvents env.mkdirResult, true, true⟩
      else
        ⟨.ok 6,
         preEvents env ++ mkdirEvents env.mkdirResult
           ++ [.errorMsg encodingErrMsg, .displayMsg unicodeTracebackMsg false],
         false, false⟩

/-- Process outcome: `sys.exit(code)`, or an exception escaping
`__main__` uncaught (explicit `raise` in debug mode, or an exception
raised inside an `except` handler). -/
inductive Outcome where
  | exit (code : Int)
  | uncaught (e : PyExc)
deriving DecidableEq, Repr

/-- Full result of one dispatcher run. -/
structure RunTrace where
  outcome : Outcome
  events : List Ev
  constructed : Bool
  ran : Bool
deriving DecidableEq, Repr

/-- The `AttributeError` message when the `AnsibleOptionsError` handler
evaluates `cli.parser` while `cli` is still `None`. -/
def noneParserMsg : String := "'NoneType' object has no attribute 'parser'"

/-- The `except` chain of the outer `try` (source lines 130-165), applied
to the exception `e` escaping the body, with the events emitted so far
and the `cli`-state flags.  Note the `AnsibleOptionsError` arm runs
`cli.parser.print_help()` unconditionally: when `cli` is `None` this
raises an `AttributeError` inside the handler, which escapes uncaught. -/
def handleExc (env : Env) (ev : List Ev) (constructed ran : Bool) (e : PyExc) : RunTrace :=
  match e with
  | .optionsError msg =>
    if constructed then
      ⟨.exit 5, ev ++ [.printHelp, .errorMsg msg], constructed, ran⟩
    else
      ⟨.uncaught (.attributeError noneParserMsg), ev, constructed, ran⟩
  | .parserError msg => ⟨.exit 4, ev ++ [.errorMsg msg], constructed, ran⟩
  | .ansibleError msg => ⟨.exit 1, ev ++ [.errorMsg msg], constructed, ran⟩
  | .keyboardInterrupt =>
    ⟨.exit 99, ev ++ [.errorMsg "User interrupted execution"], constructed, ran⟩
  | e =>
    if env.debug then
      ⟨.uncaught e, ev, constructed, ran⟩
    else
      let ev1 := ev ++ [.errorMsg ("Unexpected Exception, this is probably a bug: " ++ excText e)]
      if !env.hasCliOptions || env.verbosity > 2 then
        let orig : List Ev :=
          match env.origExc with
          | none => []
          | some why =>
            [.vvvMsg "exception type"]
              ++ (if excText e = why then [] else [.vvvMsg ("original msg: " ++ why)])
        ⟨.exit 250, ev1 ++ orig ++ [.displayMsg genericTracebackMsg false], constructed, ran⟩
      else
        ⟨.exit 250,
         ev1 ++ [.displayMsg "to see the full traceback, use -vvv" false,
                 .displayMsg genericTracebackMsg true],
         constructed, ran⟩

/-- The whole `__main__` block: the guarded config import (exit 5 through
the `LastResort` display on `AnsibleOptionsError`), then the outer `try`
body and its `except` chain, ending at the single `sys.exit(exit_code)`. -/
def dispatch (env : Env) (me : List Char) : RunTrace :=
  match env.configImportError with
  | some msg => ⟨.exit 5, [.errorMsg msg], false, false⟩
  | none =>
    match tryBody env me with
    | ⟨.ok code, ev, c, r⟩ => ⟨.exit code, ev, c, r⟩
    | ⟨.error e, ev, c, r⟩ => handleExc env ev c r e

/-! ## Lemmas about `pySplit` -/

theorem pySplit_ne_nil (sep : Char) (s : List Char) : pySplit sep s ≠ [] := by
  cases s with
  | nil => simp [pySplit]
  | cons c cs =>
    simp only [pySplit]
    split
    · simp
    · split <;> simp

theorem pySplit_no_sep (sep : Char) (s : List Char) (h : sep ∉ s) :
    pySplit sep s = [s] := by
  induction s with
  | nil => simp [pySplit]
  | cons c cs ih =>
    simp only [List.mem_cons, not_or] at h
    simp only [pySplit]
    rw [if_neg (fun hc => h.1 hc.symm), ih h.2]

theorem pySplit_append_sep (sep : Char) (a b : List Char) (h : sep ∉ a) :
    pySplit sep (a ++ sep :: b) = a :: pySplit sep b := by
  induction a with
  | nil => simp [pySplit]
  | cons c cs ih =>
    simp only [List.mem_cons, not_or] at h
    simp only [List.cons_append, pySplit, List.append_eq]
    rw [if_neg (fun hc => h.1 hc.symm), ih h.2]

/-! ## Characterisation of the `IndexError` cases of alias resolution -/

theorem resolveCore_def (ts : List (List Char)) :
    resolveCore ts =
      match ts.getLast? with
      | none => .indexError
      | some [] => .indexError
      | some (c :: _) =>
        match (if c.isDigit then ts.dropLast else ts) with
        | _ :: sub :: _ => .ok sub
        | [t] => if t = ansibleChars then .ok adhocChars else .unknownAlias
        | [] => .indexError := rfl

/-- `resolveCore` factored through the one-time digit-suffix strip: the
selection of lines 93-98 applied to the stripped token list. -/
theorem resolveCore_strippedTokens (ts : List (List Char)) :
    resolveCore ts =
      match strippedTokens ts with
      | none => .indexError
      | some target =>
        match target with
        | _ :: sub :: _ => .ok sub
        | [t] => if t = ansibleChars then .ok adhocChars else .unknownAlias
        | [] => .indexError := by
  rw [resolveCore_def]
  unfold strippedTokens
  cases h : ts.getLast? with
  | none => rfl
  | some l => cases l <;> rfl

theorem resolveCore_eq_indexError (ts : List (List Char)) (hts : ts ≠ []) :
    resolveCore ts = .indexError ↔
      ts.getLast? = some [] ∨ ∃ c cs, ts = [c :: cs] ∧ c.isDigit := by
  match ts with
  | [] => exact absurd rfl hts
  | [t] =>
    cases t with
    | nil => simp [resolveCore]
    | cons c cs =>
      rw [resolveCore_def]
      simp only [List.getLast?_singleton]
      by_cases hc : c.isDigit
      · rw [if_pos hc]
        simp [List.dropLast_single, hc]
      · rw [if_neg hc]
        dsimp only
        rcases eq_or_ne (c :: cs) ansibleChars with h | h
        · rw [if_pos h]
          simp [hc]
        · rw [if_neg h]
          simp [hc]
  | a :: b :: rest =>
    have hlast : (a :: b :: rest).getLast? =
        some ((a :: b :: rest).getLast (by simp)) :=
      List.getLast?_eq_getLast _ _
    have hsingle : ∀ x : List Char, a :: b :: rest ≠ [x] := by
      intro x hx
      simp at hx
    cases hL : (a :: b :: rest).getLast (by simp) with
    | nil =>
      rw [hL] at hlast
      simp [resolveCore_def, hlast]
    | cons c cs =>
      rw [hL] at hlast
      rw [resolveCore_def, hlast]
      dsimp only
      by_cases hc : c.isDigit
      · rw [if_pos hc]
        rw [List.dropLast_cons₂]
        cases h2 : (b :: rest).dropLast with
        | nil =>
          dsimp only
          rcases eq_or_ne a ansibleChars with h | h
          · rw [if_pos h]
            simp [hsingle]
          · rw [if_neg h]
            simp [hsingle]
        | cons z zs =>
          simp [hsingle]
      · rw [if_neg hc]
        simp [hsingle, hc]

/-- The alias step raises `IndexError` exactly when the split basename has
an empty last token (`target[-1][0]` out of range) or is a single token
whose first character is a digit, so the version strip empties the token
list and `target[0]` is out of range. -/
theorem resolve_alias_indexError_iff (me : List Char) :
    resolve_alias me = .indexError ↔
      (pySplit '-' me).getLast? = some [] ∨
      ∃ c cs, pySplit '-' me = [c :: cs] ∧ c.isDigit :=
  resolveCore_eq_indexError _ (pySplit_ne_nil _ _)

/-! ## C1: alias resolution on `<prefix>-<name>-<digits>` basenames -/

/-- C1: for every basename of the form `<prefix>-<name>-<digits>` (three
hyphen-separated tokens, the last a nonempty digit string), alias
resolution yields `<name>` regardless of the digit string; and the
basename `ansible` alone resolves to the fixed default alias `adhoc`. -/
theorem c1_alias_of_versioned_basename (p n d : List Char)
    (hp : '-' ∉ p) (hn : '-' ∉ n)
    (hd : d ≠ []) (hdig : ∀ c ∈ d, c.isDigit) :
    resolve_alias (p ++ '-' :: (n ++ '-' :: d)) = .ok n ∧
    resolve_alias ansibleChars = .ok adhocChars := by
  constructor
  · have hds : '-' ∉ d := fun hm => by simpa using hdig '-' hm
    obtain ⟨dc, dcs, rfl⟩ : ∃ dc dcs, d = dc :: dcs := by
      cases d with
      | nil => exact absurd rfl hd
      | cons x xs => exact ⟨x, xs, rfl⟩
    have hdc : dc.isDigit := hdig dc (List.mem_cons_self _ _)
    unfold resolve_alias
    rw [pySplit_append_sep _ _ _ hp, pySplit_append_sep _ _ _ hn,
      pySplit_no_sep _ _ hds]
    simp [resolveCore, hdc]
  · decide

theorem c1_witness :
    resolve_alias
        (['t', 'o', 'o', 'l'] ++ '-' :: (['w', 'i', 'd', 'g', 'e', 't'] ++ '-' :: ['2', '9']))
      = .ok ['w', 'i', 'd', 'g', 'e', 't'] ∧
    resolve_alias ansibleChars = .ok adhocChars :=
  c1_alias_of_versioned_basename ['t', 'o', 'o', 'l'] ['w', 'i', 'd', 'g', 'e', 't'] ['2', '9']
    (by decide) (by decide) (by decide) (by decide)

/-! ## Dispatcher plumbing lemmas -/

/-- A run in which every collaborator behaves: config imports, the
sub-command module loads, the state directory is created, the argument
vector re-encodes, construction succeeds and `run()` returns 0, debug
off, options parsed, verbosity 0. -/
def env0 : Env :=
  { configImportError := none
    controllerPythonWarning := false
    py38min := true
    importOutcome := .ok
    mkdirResult := .created
    argvDecodable := true
    constructExc := none
    runResult := .ok 0
    debug := false
    hasCliOptions := true
    verbosity := 0
    origExc := none }

theorem dispatch_of_tryBody_error (env : Env) (me : List Char) (e : PyExc)
    (hconf : env.configImportError = none)
    (h : (tryBody env me).res = .error e) :
    dispatch env me =
      handleExc env (tryBody env me).events (tryBody env me).constructed
        (tryBody env me).ran e := by
  unfold dispatch
  rw [hconf]
  rcases htb : tryBody env me with ⟨res, ev, c, r⟩
  rw [htb] at h
  dsimp only at h ⊢
  subst h
  rfl

theorem dispatch_of_tryBody_ok (env : Env) (me : List Char) (code : Int)
    (hconf : env.configImportError = none)
    (h : (tryBody env me).res = .ok code) :
    dispatch env me =
      ⟨.exit code, (tryBody env me).events, (tryBody env me).constructed,
        (tryBody env me).ran⟩ := by
  unfold dispatch
  rw [hconf]
  rcases htb : tryBody env me with ⟨res, ev, c, r⟩
  rw [htb] at h
  dsimp only at h ⊢
  subst h
  rfl

/-- The generic `except Exception` arm with debug off always sets
`exit_code = 250`, in both verbosity branches. -/
theorem handleExc_unclassified_exit (env : Env) (ev : List Ev)
    (c r : Bool) (e : PyExc)
    (hu : isUnclassified e = true) (hdbg : env.debug = false) :
    (handleExc env ev c r e).outcome = .exit 250 := by
  cases e <;> simp [isUnclassified, isAnsibleExc] at hu <;>
    cases hco : env.hasCliOptions <;> by_cases hv : env.verbosity > 2 <;>
      simp [handleExc, hdbg, hco, hv]

/-- The generic `except Exception` arm with debug on re-raises the
exception unchanged. -/
theorem handleExc_unclassified_debug (env : Env) (ev : List Ev)
    (c r : Bool) (e : PyExc)
    (hu : isUnclassified e = true) (hdbg : env.debug = true) :
    handleExc env ev c r e = ⟨.uncaught e, ev, c, r⟩ := by
  cases e <;> simp [isUnclassified, isAnsibleExc] at hu <;>
    simp [handleExc, hdbg]

/-! ## C8: totality of alias resolution -/

/-- C8 as stated is false: on the basename `2.9` the alias step neither
returns an alias nor raises `UnknownAliasError`; it raises `IndexError`
(the single token starts with a digit, the strip empties the token list,
and `target[0]` is out of range). -/
theorem c8_counterexample :
    (resolve_alias ['2', '.', '9']).isOk = false ∧
    resolve_alias ['2', '.', '9'] ≠ .unknownAlias := by
  decide

/-- C8 amended: alias resolution is a pure total function which, for
every basename, returns an alias, fails with the explicit
`UnknownAliasError` of step 5, or raises `IndexError` — the latter
exactly when the split leaves an empty last token or a single token
beginning with a digit. -/
theorem c8_resolve_alias_total (me : List Char) :
    (resolve_alias me).isOk = true ∨
    resolve_alias me = .unknownAlias ∨
    (resolve_alias me = .indexError ∧
      ((pySplit '-' me).getLast? = some [] ∨
        ∃ c cs, pySplit '-' me = [c :: cs] ∧ c.isDigit)) := by
  cases h : resolve_alias me with
  | ok sub => exact Or.inl (by simp [AliasResult.isOk])
  | unknownAlias => exact Or.inr (Or.inl rfl)
  | indexError =>
    exact Or.inr (Or.inr ⟨rfl, (resolve_alias_indexError_iff me).mp h⟩)

/-! ## C10: digit-initial single tokens and empty last tokens -/

/-- C10: a basename whose split has an empty last token (e.g. ending in
`-`), or is a single token beginning with a digit (e.g. `2.9`), makes
the alias step raise `IndexError`; it reaches the generic unclassified
arm, so with the debug flag unset the process exits with code 250 (not
with `UnknownAliasError` / exit 1). -/
theorem c10_indexError_exits_250 (env : Env) (me : List Char)
    (hconf : env.configImportError = none) (hdbg : env.debug = false)
    (h : (pySplit '-' me).getLast? = some [] ∨
         ∃ c cs, pySplit '-' me = [c :: cs] ∧ c.isDigit) :
    (dispatch env me).outcome = .exit 250 := by
  have hidx : resolve_alias me = .indexError :=
    (resolve_alias_indexError_iff me).mpr h
  have htb : (tryBody env me).res = .error .indexError := by
    simp [tryBody, hidx]
  rw [dispatch_of_tryBody_error env me .indexError hconf htb]
  exact handleExc_unclassified_exit env _ _ _ _ (by decide) hdbg

theorem c10_witness :
    (dispatch env0 ['2', '.', '9']).outcome = .exit 250 :=
  c10_indexError_exits_250 env0 ['2', '.', '9'] rfl rfl
    (Or.inr ⟨'2', ['.', '9'], by decide, by decide⟩)

/-! ## C2: undecodable argument vectors -/

/-- C2: when some argument cannot be re-encoded under strict utf-8 and
the pipeline reaches the re-encoding step (configuration imported, alias
resolved, implementation module loaded), the dispatcher terminates with
exit code 6, the sub-command implementation is never constructed, and
its `run()` is never invoked. -/
theorem c2_encoding_error_exit_6 (env : Env) (me sub : List Char)
    (hconf : env.configImportError = none)
    (halias : resolve_alias me = .ok sub)
    (hload : load_impl me sub env.importOutcome = .ok ())
    (hargs : env.argvDecodable = false) :
    (dispatch env me).outcome = .exit 6 ∧
    (dispatch env me).constructed = false ∧
    (dispatch env me).ran = false := by
  have htb : (tryBody env me).res = .ok 6 ∧
      (tryBody env me).constructed = false ∧ (tryBody env me).ran = false := by
    simp [tryBody, halias, hload, hargs]
  rw [dispatch_of_tryBody_ok env me 6 hconf htb.1]
  exact ⟨rfl, htb.2.1, htb.2.2⟩

theorem c2_witness :
    (dispatch { env0 with argvDecodable := false } ansibleChars).outcome = .exit 6 ∧
    (dispatch { env0 with argvDecodable := false } ansibleChars).constructed = false ∧
    (dispatch { env0 with argvDecodable := false } ansibleChars).ran = false :=
  c2_encoding_error_exit_6 { env0 with argvDecodable := false } ansibleChars adhocChars
    rfl (by decide) rfl rfl

/-! ## C3: loader discrimination of missing modules -/

/-- C3: when the import of the alias's module fails with an
`ImportError` whose message ends with a space followed by exactly the
alias (the missing-module shape), the loader raises the not-implemented
`AnsibleError` (`SubcommandNotImplementedError`) and the dispatcher
exits with code 1; when the `ImportError` message does not reference the
alias that way (module exists but failed to load), the loader re-raises
the original `ImportError` unchanged. -/
theorem c3_loader_discrimination (env : Env) (me sub : List Char) (msg : String)
    (hconf : env.configImportError = none)
    (halias : resolve_alias me = .ok sub)
    (himp : env.importOutcome = .importErr msg) :
    (pyEndsWith msg (" " ++ sub.asString) = true →
      load_impl me sub env.importOutcome =
        .error (.ansibleError ("Ansible sub-program not implemented: " ++ me.asString)) ∧
      (dispatch env me).outcome = .exit 1) ∧
    (pyEndsWith msg (" " ++ sub.asString) = false →
      load_impl me sub env.importOutcome = .error (.importError msg)) := by
  constructor
  · intro hend
    have hload : load_impl me sub env.importOutcome =
        .error (.ansibleError ("Ansible sub-program not implemented: " ++ me.asString)) := by
      simp [load_impl, himp, hend]
    refine ⟨hload, ?_⟩
    have htb : (tryBody env me).res =
        .error (.ansibleError ("Ansible sub-program not implemented: " ++ me.asString)) := by
      simp [tryBody, halias, hload]
    rw [dispatch_of_tryBody_error env me _ hconf htb]
    simp [handleExc]
  · intro hend
    simp [load_impl, himp, hend]

theorem c3_witness :
    (pyEndsWith "No module named adhoc" (" " ++ adhocChars.asString) = true →
      load_impl ansibleChars adhocChars
          ({ env0 with importOutcome := .importErr "No module named adhoc" }).importOutcome =
        .error (.ansibleError ("Ansible sub-program not implemented: " ++ ansibleChars.asString)) ∧
      (dispatch { env0 with importOutcome := .importErr "No module named adhoc" }
          ansibleChars).outcome = .exit 1) ∧
    (pyEndsWith "No module named adhoc" (" " ++ adhocChars.asString) = false →
      load_impl ansibleChars adhocChars
          ({ env0 with importOutcome := .importErr "No module named adhoc" }).importOutcome =
        .error (.importError "No module named adhoc")) :=
  c3_loader_discrimination { env0 with importOutcome := .importErr "No module named adhoc" }
    ansibleChars adhocChars "No module named adhoc" rfl (by decide) rfl

/-! ## C5: unknown aliases -/

/-- C5: a basename whose split, after the one-time digit-suffix strip,
leaves a single token (no hyphenated second component) different from
`ansible` fails alias resolution with the `Unknown Ansible alias`
`AnsibleError`, which the dispatcher's `AnsibleError` arm surfaces as a
suite-level error with exit code 1.  This covers both basenames with no
hyphen at all (`foo`) and basenames whose only further token is the
stripped digit suffix (`foo-2`). -/
theorem c5_unknown_alias_exit_1 (env : Env) (me t : List Char)
    (hconf : env.configImportError = none)
    (hstrip : strippedTokens (pySplit '-' me) = some [t])
    (hne : t ≠ ansibleChars) :
    resolve_alias me = .unknownAlias ∧
    (dispatch env me).outcome = .exit 1 ∧
    Ev.errorMsg ("Unknown Ansible alias: " ++ me.asString) ∈ (dispatch env me).events := by
  have h1 : resolve_alias me = .unknownAlias := by
    unfold resolve_alias
    rw [resolveCore_strippedTokens, hstrip]
    simp [hne]
  have htb : (tryBody env me).res =
      .error (.ansibleError ("Unknown Ansible alias: " ++ me.asString)) := by
    simp [tryBody, h1]
  refine ⟨h1, ?_, ?_⟩ <;>
    rw [dispatch_of_tryBody_error env me _ hconf htb] <;>
      simp [handleExc]

theorem c5_witness :
    resolve_alias ['f', 'o', 'o', '-', '2'] = .unknownAlias ∧
    (dispatch env0 ['f', 'o', 'o', '-', '2']).outcome = .exit 1 ∧
    Ev.errorMsg ("Unknown Ansible alias: "
        ++ (['f', 'o', 'o', '-', '2'] : List Char).asString)
      ∈ (dispatch env0 ['f', 'o', 'o', '-', '2']).events :=
  c5_unknown_alias_exit_1 env0 ['f', 'o', 'o', '-', '2'] ['f', 'o', 'o']
    rfl (by decide) (by decide)

/-! ## Event bookkeeping lemmas -/

theorem tryBody_events_or_ok (env : Env) (me : List Char) :
    (tryBody env me).events = preEvents env ∨
    (tryBody env me).events = preEvents env ++ mkdirEvents env.mkdirResult ∨
    ∃ code, (tryBody env me).res = .ok code := by
  unfold tryBody
  rcases hra : resolve_alias me with sub | _ | _ <;> simp only [hra]
  · rcases hl : load_impl me sub env.importOutcome with e2 | u <;> simp only [hl]
    · simp
    · cases ha : env.argvDecodable
      · simp [ha]
      · simp only [ha]
        cases hc : env.constructExc
        · rcases hr : env.runResult with e3 | code <;> simp [hc, hr]
        · simp [hc]
  · simp
  · simp

/-- When the `try` body fails, no `display(...)` call has happened yet:
all events so far are the deprecation note, debug notes, or the mkdir
warning. -/
theorem tryBody_error_no_display (env : Env) (me : List Char) (e : PyExc)
    (h : (tryBody env me).res = .error e) (m : String) (b : Bool) :
    Ev.displayMsg m b ∉ (tryBody env me).events := by
  have hpre : Ev.displayMsg m b ∉ preEvents env := by
    unfold preEvents
    cases env.controllerPythonWarning && !env.py38min <;> simp
  have hmk : Ev.displayMsg m b ∉ mkdirEvents env.mkdirResult := by
    cases env.mkdirResult <;> simp [mkdirEvents]
  rcases tryBody_events_or_ok env me with he | he | ⟨code, hres⟩
  · rw [he]
    exact hpre
  · rw [he]
    simp [List.mem_append, hpre, hmk]
  · rw [hres] at h
    simp at h

/-- The generic `except Exception` arm with debug off, CLI options
parsed, and verbosity at most 2: one-line summary, the `-vvv` hint, and
the traceback passed with `log_only=True`. -/
theorem handleExc_unclassified_quiet (env : Env) (ev : List Ev)
    (c r : Bool) (e : PyExc)
    (hu : isUnclassified e = true) (hdbg : env.debug = false)
    (hopts : env.hasCliOptions = true) (hv : env.verbosity ≤ 2) :
    handleExc env ev c r e =
      ⟨.exit 250,
       ev ++ [.errorMsg ("Unexpected Exception, this is probably a bug: " ++ excText e),
              .displayMsg "to see the full traceback, use -vvv" false,
              .displayMsg genericTracebackMsg true], c, r⟩ := by
  have hv2 : ¬ env.verbosity > 2 := by omega
  cases e <;> simp [isUnclassified, isAnsibleExc] at hu <;>
    simp [handleExc, hdbg, hopts, hv2, excText]

/-! ## C6: debug flag controls unclassified-failure propagation -/

/-- C6: an unclassified failure raised in the pipeline body reaches the
generic `except Exception` arm: with the debug flag set it is re-raised
uncaught, with no exit-code translation; with the flag unset the
dispatcher terminates with exit code 250. -/
theorem c6_unclassified_debug_gate (env : Env) (me : List Char) (e : PyExc)
    (hconf : env.configImportError = none)
    (htb : (tryBody env me).res = .error e)
    (hu : isUnclassified e = true) :
    (env.debug = true → (dispatch env me).outcome = .uncaught e) ∧
    (env.debug = false → (dispatch env me).outcome = .exit 250) := by
  rw [dispatch_of_tryBody_error env me e hconf htb]
  constructor
  · intro hdbg
    rw [handleExc_unclassified_debug env _ _ _ e hu hdbg]
  · intro hdbg
    exact handleExc_unclassified_exit env _ _ _ e hu hdbg

theorem c6_witness :
    (dispatch { env0 with runResult := .error (.otherExc "boom"), debug := true }
        ansibleChars).outcome = .uncaught (.otherExc "boom") ∧
    (dispatch { env0 with runResult := .error (.otherExc "boom") }
        ansibleChars).outcome = .exit 250 :=
  ⟨(c6_unclassified_debug_gate
      { env0 with runResult := .error (.otherExc "boom"), debug := true }
      ansibleChars (.otherExc "boom") rfl rfl (by decide)).1 rfl,
   (c6_unclassified_debug_gate
      { env0 with runResult := .error (.otherExc "boom") }
      ansibleChars (.otherExc "boom") rfl rfl (by decide)).2 rfl⟩

/-! ## C7: quiet diagnostics for unclassified failures -/

/-- C7: an unclassified failure with the debug flag unset, CLI options
parsed, and verbosity at most 2 makes the dispatcher exit with code 250,
print the one-line unexpected-exception summary on the error stream, and
hand the full traceback to the display with `log_only=True`; no event
displays the traceback without `log_only`. -/
theorem c7_unclassified_quiet (env : Env) (me : List Char) (e : PyExc)
    (hconf : env.configImportError = none)
    (htb : (tryBody env me).res = .error e)
    (hu : isUnclassified e = true)
    (hdbg : env.debug = false)
    (hopts : env.hasCliOptions = true)
    (hv : env.verbosity ≤ 2) :
    (dispatch env me).outcome = .exit 250 ∧
    Ev.errorMsg ("Unexpected Exception, this is probably a bug: " ++ excText e)
      ∈ (dispatch env me).events ∧
    Ev.displayMsg genericTracebackMsg true ∈ (dispatch env me).events ∧
    Ev.displayMsg genericTracebackMsg false ∉ (dispatch env me).events := by
  rw [dispatch_of_tryBody_error env me e hconf htb,
    handleExc_unclassified_quiet env _ _ _ e hu hdbg hopts hv]
  refine ⟨rfl, by simp, by simp, ?_⟩
  intro hmem
  simp only [List.mem_append, List.mem_cons, List.mem_singleton] at hmem
  rcases hmem with hmem | hmem | hmem | hmem
  · exact tryBody_error_no_display env me e htb _ _ hmem
  · exact Ev.noConfusion hmem
  · exact absurd (Ev.displayMsg.injEq .. ▸ hmem) (by simp [genericTracebackMsg])
  · exact absurd hmem (by simp)

theorem c7_witness :
    (dispatch { env0 with runResult := .error (.otherExc "boom") }
        ansibleChars).outcome = .exit 250 ∧
    Ev.errorMsg ("Unexpected Exception, this is probably a bug: "
        ++ excText (.otherExc "boom"))
      ∈ (dispatch { env0 with runResult := .error (.otherExc "boom") }
          ansibleChars).events ∧
    Ev.displayMsg genericTracebackMsg true
      ∈ (dispatch { env0 with runResult := .error (.otherExc "boom") }
          ansibleChars).events ∧
    Ev.displayMsg genericTracebackMsg false
      ∉ (dispatch { env0 with runResult := .error (.otherExc "boom") }
          ansibleChars).events :=
  c7_unclassified_quiet { env0 with runResult := .error (.otherExc "boom") }
    ansibleChars (.otherExc "boom") rfl rfl (by decide) rfl rfl (by decide)

/-! ## C4: AnsibleOptionsError handling -/

/-- C4 as stated fails on the code: an `AnsibleOptionsError` raised in
the pipeline before `cli = mycli(args)` completes (here, raised by the
constructor itself) does not terminate with exit code 5 — the handler's
`cli.parser.print_help()` evaluates `.parser` on `None` and the
resulting `AttributeError` escapes uncaught. -/
theorem c4_counterexample :
    (dispatch { env0 with constructExc := some (.optionsError "bad options") }
        ansibleChars).outcome = .uncaught (.attributeError noneParserMsg) ∧
    (dispatch { env0 with constructExc := some (.optionsError "bad options") }
        ansibleChars).outcome ≠ .exit 5 := by
  constructor
  · rfl
  · decide

/-- C4 amended: an `AnsibleOptionsError` at configuration-import time
exits with code 5 (error message only, no parser yet, so no help text);
one raised in the pipeline after the implementation object exists prints
the help text before the error message and exits with code 5; one raised
in the pipeline before the implementation object exists makes the
handler's `cli.parser` access raise an `AttributeError` that escapes
uncaught instead of producing exit code 5. -/
theorem c4_options_error_paths (env : Env) (me : List Char) (msg : String) :
    (env.configImportError = some msg →
      dispatch env me = ⟨.exit 5, [.errorMsg msg], false, false⟩) ∧
    (env.configImportError = none →
      (tryBody env me).res = .error (.optionsError msg) →
      (tryBody env me).constructed = true →
      (dispatch env me).outcome = .exit 5 ∧
      (dispatch env me).events
        = (tryBody env me).events ++ [.printHelp, .errorMsg msg]) ∧
    (env.configImportError = none →
      (tryBody env me).res = .error (.optionsError msg) →
      (tryBody env me).constructed = false →
      (dispatch env me).outcome = .uncaught (.attributeError noneParserMsg)) := by
  refine ⟨?_, ?_, ?_⟩
  · intro h
    simp [dispatch, h]
  · intro hc htb hcons
    rw [dispatch_of_tryBody_error env me _ hc htb]
    simp [handleExc, hcons]
  · intro hc htb hcons
    rw [dispatch_of_tryBody_error env me _ hc htb]
    simp [handleExc, hcons]

theorem c4_witness :
    (dispatch { env0 with runResult := .error (.optionsError "bad options") }
        ansibleChars).outcome = .exit 5 ∧
    (dispatch { env0 with runResult := .error (.optionsError "bad options") }
        ansibleChars).events =
      (tryBody { env0 with runResult := .error (.optionsError "bad options") }
          ansibleChars).events ++ [.printHelp, .errorMsg "bad options"] :=
  (c4_options_error_paths { env0 with runResult := .error (.optionsError "bad options") }
      ansibleChars "bad options").2.1 rfl rfl rfl

/-! ## C9: state-directory preparation -/

/-- The process outcome of the `except` chain, independent of the events
emitted so far. -/
theorem handleExc_outcome (env : Env) (ev : List Ev) (c r : Bool) (e : PyExc) :
    (handleExc env ev c r e).outcome =
      match e with
      | .optionsError _ =>
        if c then .exit 5 else .uncaught (.attributeError noneParserMsg)
      | .parserError _ => .exit 4
      | .ansibleError _ => .exit 1
      | .keyboardInterrupt => .exit 99
      | e => if env.debug then .uncaught e else .exit 250 := by
  cases e <;> dsimp only [handleExc]
  · cases c <;> rfl
  all_goals
    cases hdbg : env.debug
    · by_cases hcond : (!env.hasCliOptions || decide (env.verbosity > 2)) = true
      · simp [hdbg, hcond]
      · simp [hdbg, hcond]
    · simp [hdbg]

/-- The result and `cli`-state flags of the `try` body do not depend on
the `os.mkdir` outcome; only the emitted events do. -/
theorem tryBody_mkdir_indep (env : Env) (me : List Char) (r : MkdirResult) :
    (tryBody { env with mkdirResult := r } me).res = (tryBody env me).res ∧
    (tryBody { env with mkdirResult := r } me).constructed
      = (tryBody env me).constructed := by
  unfold tryBody
  dsimp only
  rcases hra : resolve_alias me with sub | _ | _ <;> simp only [hra]
  · rcases hl : load_impl me sub env.importOutcome with e2 | u <;> simp only [hl]
    · simp
    · cases ha : env.argvDecodable
      · simp [ha]
      · simp only [ha]
        cases hc : env.constructExc
        · rcases hr : env.runResult with e3 | code <;> simp [hc, hr]
        · simp [hc]
  · simp
  · simp

/-- C9: state-directory preparation never terminates the process — the
dispatcher outcome is independent of the `os.mkdir` result — an
already-existing directory produces no warning and the run proceeds, the
preparation is idempotent (a second call on the same path, after a first
call whose creation attempt did not fail for a reason other than
existence, emits nothing and cannot fail), and any other creation
failure produces only a single non-fatal warning, leaving the
filesystem unchanged. -/
theorem c9_state_directory (env : Env) (me : List Char)
    (r1 r2 : MkdirResult) (fs : FS) :
    ((dispatch { env with mkdirResult := r1 } me).outcome =
       (dispatch { env with mkdirResult := r2 } me).outcome) ∧
    ((osMkdir fs).2 = .eexist → (ensure_state_directory fs).2 = []) ∧
    ((∀ m, (osMkdir fs).2 ≠ .failed m) →
       (ensure_state_directory (ensure_state_directory fs).1).2 = []) ∧
    (∀ m, (osMkdir fs).2 = .failed m →
       (ensure_state_directory fs).2
         = [.warningMsg ("Failed to create the directory '~/.ansible': " ++ m)] ∧
       (ensure_state_directory fs).1 = fs) := by
  refine ⟨?_, ?_, ?_, ?_⟩
  · have h1 := tryBody_mkdir_indep env me r1
    have h2 := tryBody_mkdir_indep env me r2
    set E1 := { env with mkdirResult := r1 } with hE1
    set E2 := { env with mkdirResult := r2 } with hE2
    cases hcf : env.configImportError with
    | some msg => simp [dispatch, hcf]
    | none =>
      have hcf1 : E1.configImportError = none := hcf
      have hcf2 : E2.configImportError = none := hcf
      rcases hres : (tryBody env me).res with e | code
      · rw [dispatch_of_tryBody_error E1 me e hcf1 (h1.1.trans hres),
          dispatch_of_tryBody_error E2 me e hcf2 (h2.1.trans hres),
          handleExc_outcome, handleExc_outcome, h1.2, h2.2]
      · rw [dispatch_of_tryBody_ok E1 me code hcf1 (h1.1.trans hres),
          dispatch_of_tryBody_ok E2 me code hcf2 (h2.1.trans hres)]
  · intro h
    unfold ensure_state_directory
    rcases hm : osMkdir fs with ⟨fs1, rr⟩
    rw [hm] at h
    dsimp only at h ⊢
    rw [h]
    rfl
  · intro h
    rcases fs with ⟨de, w⟩
    cases de
    · cases w
      · exact absurd (by simp [osMkdir]) (h "permission denied")
      · simp [osMkdir, ensure_state_directory, mkdirEvents]
    · simp [osMkdir, ensure_state_directory, mkdirEvents]
  · intro m hm
    rcases fs with ⟨de, w⟩
    cases de <;> cases w <;> simp [osMkdir] at hm ⊢
    simp [ensure_state_directory, osMkdir, mkdirEvents, hm]

theorem c9_witness :
    (ensure_state_directory (ensure_state_directory ⟨false, true⟩).1).2 = [] ∧
    (ensure_state_directory ⟨true, false⟩).2 = [] ∧
    (ensure_state_directory ⟨false, false⟩).2
      = [.warningMsg ("Failed to create the directory '~/.ansible': "
          ++ "permission denied")] ∧
    (dispatch { env0 with mkdirResult := .failed "read-only filesystem" }
        ansibleChars).outcome =
      (dispatch { env0 with mkdirResult := .eexist } ansibleChars).outcome :=
  ⟨(c9_state_directory env0 ansibleChars .created .eexist ⟨false, true⟩).2.2.1
      (fun _ h => nomatch h),
   (c9_state_directory env0 ansibleChars .created .eexist ⟨true, false⟩).2.1
      (by decide),
   ((c9_state_directory env0 ansibleChars .created .eexist ⟨false, false⟩).2.2.2
      "permission denied" (by decide)).1,
   (c9_state_directory env0 ansibleChars (.failed "read-only filesystem") .eexist
      ⟨true, true⟩).1⟩

end AnsibleStub
